import Mathlib

/-!
Verification of the voting-integration and scoring engine of the
Irish-Democratic-Accountability-Dashboard repository.

The development shallowly embeds the `EnhancedVotingIntegration` class of
`setup-release.js` and the hypocrisy analysis of
`voting-extraction/oireachtas-voting-extractor.js`:

* JS numbers that are always integers are modelled as `Nat`;
* JS fractional numbers (electoral margins, likelihoods, blended priorities)
  are modelled as `ℚ` with the source's decimal constants written as exact
  fractions (`0.6 = 6/10`, `2.5 = 5/2`, ...);
* optional / possibly-absent JS object fields are modelled as `Option`;
* `Math.random()` draws are modelled as an explicit list of rationals;
* `new Date().toISOString()` readings are modelled as an explicit `now : Nat`
  parameter;
* a call `this.m(...)` to a method name that the class does not define throws
  a `TypeError` in JS; this is modelled by `callOpt` applied to an `Option`al
  function that is `none` exactly when the class defines no such method.

Source files use mangled UTF-8 (`Fianna F√°il`); the intended spellings
(`Fianna Fáil`, `Sinn Féin`) are used here.
-/

/-- A JavaScript runtime error surfaced by the integration code. -/
inductive JSError where
  | typeError (msg : String)
deriving Repr, DecidableEq

/-- Model of calling `this.<methodName>(arg)`: if the class defines the method
(`some f`) the call returns its result, otherwise JS throws
`TypeError: this.<methodName> is not a function`. -/
def callOpt {α β : Type} (method : Option (α → β)) (methodName : String) (arg : α) :
    Except JSError β :=
  match method with
  | some f => .ok (f arg)
  | none => .error (.typeError ("this." ++ methodName ++ " is not a function"))

/-- JS `v || d` for an optional numeric field: `undefined` and `0` are falsy. -/
def jsOr (v : Option Nat) (d : Nat) : Nat :=
  match v with
  | some n => if n = 0 then d else n
  | none => d

/-- Lookup in a JS object used as a string-keyed map. -/
def lookupName {α : Type} (m : List (String × α)) (k : String) : Option α :=
  (m.find? (fun e => e.1 == k)).map (fun e => e.2)

/-- `td.properties` of a database entry: holding count and the
is-property-holder flag (`landlord_status`). -/
structure TDProperties where
  property_count : Nat
  landlord_status : Bool
deriving Repr, DecidableEq

/-- A roster entity (TD) as read by `integrateVotingRecords`, before a voting
record is attached. -/
structure RosterTD where
  party : String
  constituency : String
  properties : TDProperties
deriving Repr, DecidableEq

/-- An entry of `existingVotingData.tds` (sourced vote tallies).  All fields
except `anti_tenant_votes` are read through `|| default` in the source, so they
are `Option`al here; `anti_tenant_votes` is read raw by the score calculator
and is modelled as a present number (the scoring claims assume numeric
tallies). -/
structure ExistingVoteData where
  total_votes : Option Nat := none
  pro_tenant_votes : Option Nat := none
  anti_tenant_votes : Nat := 0
  abstentions : Option Nat := none
  missed_votes : Option Nat := none
  hypocritical_votes : Option Nat := none
deriving Repr, DecidableEq

/-- The `housing_votes` tally block of a voting record. -/
structure HousingVotes where
  total_votes : Nat
  pro_tenant_votes : Nat
  anti_tenant_votes : Nat
  abstentions : Nat
  missed_votes : Nat
deriving Repr, DecidableEq

/-- One generated per-bill vote entry (`votes.push({...})` in
`generateRealisticVotingPattern`). -/
structure DetailedVote where
  vote_id : String
  title : String
  date : String
  vote_cast : String
  is_hypocritical : Bool
  weight : Nat
deriving Repr, DecidableEq

/-- A `voting_record` attached to a TD.  `detailed_votes` and
`pressure_campaign_priority` are absent on the clean non-landlord record, so
they are `Option`al. -/
structure VotingRecord where
  housing_votes : HousingVotes
  detailed_votes : Option (List DetailedVote) := none
  hypocrisy_score : Nat
  pressure_campaign_priority : Option Nat := none
  last_updated : Nat
  verification_status : String
deriving Repr, DecidableEq

/-- One entry of `electoralData.constituencies`. -/
structure ConstituencyData where
  margin_percentage : ℚ
  vulnerability_level : String
  votes_needed : Int
  swing_required : ℚ
deriving Repr, DecidableEq

/-- The `electoral_data` block produced by `addElectoralTargeting`.  The
flip-probability fields are absent (`none`) on the no-electoral-data branch. -/
structure ElectoralTargeting where
  last_election_margin : Option ℚ
  vulnerability_level : String
  votes_needed_to_flip : Option Int := none
  targeting_priority : String
  campaign_strategy : String
  swing_required : Option ℚ := none
deriving Repr, DecidableEq

/-- A TD after integration: roster fields plus attached records.
`electoral_data` is only attached on the landlord branch. -/
structure IntegratedTD where
  party : String
  constituency : String
  properties : TDProperties
  voting_record : VotingRecord
  electoral_data : Option ElectoralTargeting := none
deriving Repr, DecidableEq

/-- One entry of the fixed `housingVoteTargets` slate. -/
structure VoteTarget where
  id : String
  title : String
  description : String
  date : String
  pro_tenant_stance : String
  weight : Nat
  category : String
deriving Repr, DecidableEq

/-- One entry of the `partyVotingTendencies` lookup table. -/
structure Tendency where
  anti_tenant_likelihood : ℚ
  party_discipline : ℚ
deriving Repr, DecidableEq

/-- The data held by an `EnhancedVotingIntegration` instance that the scoring
and integration methods read: the fixed vote-target slate, the optional sourced
voting dataset (its `.tds` map) and the optional electoral dataset (its
`.constituencies` map). -/
structure IntegrationConfig where
  housingVoteTargets : List VoteTarget
  existingVotingData : Option (List (String × ExistingVoteData)) := none
  electoralData : Option (List (String × ConstituencyData)) := none
deriving Repr, DecidableEq

/-- Metadata fields written by `integrateVotingRecords`. -/
structure DatabaseMetadata where
  voting_integration_status : String := ""
  voting_integration_date : Nat := 0
  landlord_tds_analyzed : Nat := 0
deriving Repr, DecidableEq

/-- The complete TD database before integration. -/
structure RosterDatabase where
  metadata : DatabaseMetadata := {}
  tds : List (String × RosterTD)
deriving Repr, DecidableEq

/-- The TD database after integration. -/
structure IntegratedDatabase where
  metadata : DatabaseMetadata := {}
  tds : List (String × IntegratedTD)
deriving Repr, DecidableEq

/-- The five-bill `housingVoteTargets` slate from the class constructor. -/
def housingVoteTargets : List VoteTarget :=
  [ { id := "RTB2024_001",
      title := "Residential Tenancies (Amendment) Bill 2024",
      description := "Rent control caps and eviction protections",
      date := "2024-03-15", pro_tenant_stance := "FOR", weight := 25,
      category := "tenant_protection" },
    { id := "VPT2024_001",
      title := "Vacant Property Tax (Amendment) Bill 2024",
      description := "Penalties for keeping properties vacant",
      date := "2024-04-22", pro_tenant_stance := "FOR", weight := 20,
      category := "housing_supply" },
    { id := "PDH2024_001",
      title := "Planning and Development (Housing) Bill 2024",
      description := "Social housing requirements in developments",
      date := "2024-06-11", pro_tenant_stance := "FOR", weight := 15,
      category := "social_housing" },
    { id := "RTS2024_001",
      title := "Residential Tenancies (Security of Tenure) Bill 2024",
      description := "Indefinite tenancies and eviction restrictions",
      date := "2024-09-18", pro_tenant_stance := "FOR", weight := 25,
      category := "tenant_protection" },
    { id := "PTR2024_001",
      title := "Property Tax (Rental Income) Amendment 2024",
      description := "Tax relief reductions for rental properties",
      date := "2024-10-29", pro_tenant_stance := "FOR", weight := 15,
      category := "landlord_taxation" } ]

/-- `this.electoralData?.constituencies?.[c]`. -/
def lookupConstituency (cfg : IntegrationConfig) (c : String) : Option ConstituencyData :=
  cfg.electoralData.bind (fun m => lookupName m c)

/-- `this.existingVotingData?.tds?.[name]`. -/
def lookupExistingVotes (cfg : IntegrationConfig) (name : String) : Option ExistingVoteData :=
  cfg.existingVotingData.bind (fun m => lookupName m name)

/-- `calculateEnhancedHypocrisyScore(votingData, tdInfo)`: property base
(`min(count*3, 30)`), anti-tenant votes (`*8`), hypocritical votes (`*10`),
government-party penalty (`+10`), electoral-vulnerability bonus (`+15` when
margin `< 5`), clamped by `Math.min(score, 100)`. -/
def calculateEnhancedHypocrisyScore (cfg : IntegrationConfig)
    (votingData : ExistingVoteData) (tdInfo : RosterTD) : Nat :=
  let s1 := min (tdInfo.properties.property_count * 3) 30
  let s2 := votingData.anti_tenant_votes * 8
  let s3 := (jsOr votingData.hypocritical_votes 0) * 10
  let s4 := if tdInfo.party = "Fianna Fáil" ∨ tdInfo.party = "Fine Gael" ∨
               tdInfo.party = "Green Party" then 10 else 0
  let s5 := match lookupConstituency cfg tdInfo.constituency with
    | some ed => if ed.margin_percentage < 5 then 15 else 0
    | none => 0
  min (s1 + s2 + s3 + s4 + s5) 100

/-- Holdings breakpoints of `calculatePressurePriority`. -/
def holdingsPriorityBonus (property_count : Nat) : Nat :=
  if property_count ≥ 10 then 3
  else if property_count ≥ 5 then 2
  else if property_count ≥ 1 then 1
  else 0

/-- Margin breakpoints of `calculatePressurePriority`. -/
def marginPriorityBonus (cfg : IntegrationConfig) (constituency : String) : Nat :=
  match lookupConstituency cfg constituency with
  | some ed =>
      if ed.margin_percentage < 1 then 3
      else if ed.margin_percentage < 5/2 then 2
      else if ed.margin_percentage < 5 then 1
      else 0
  | none => 0

/-- `calculatePressurePriority(votingData, tdInfo)`: starts at 1, adds the
holdings breakpoints, `Math.min(anti_tenant_votes || 0, 3)` and the margin
breakpoints, clamped by `Math.min(priority, 10)`.  (`n || 0` is the identity
on a number `n`.) -/
def calculatePressurePriority (cfg : IntegrationConfig)
    (votingData : ExistingVoteData) (tdInfo : RosterTD) : Nat :=
  min (1 + holdingsPriorityBonus tdInfo.properties.property_count
        + min votingData.anti_tenant_votes 3
        + marginPriorityBonus cfg tdInfo.constituency) 10

/-- The `partyVotingTendencies` lookup table of
`generateRealisticVotingPattern` (decimals written as exact fractions). -/
def partyVotingTendencies : List (String × Tendency) :=
  [ ("Fianna Fáil", { anti_tenant_likelihood := 7/10, party_discipline := 4/5 }),
    ("Fine Gael", { anti_tenant_likelihood := 3/4, party_discipline := 17/20 }),
    ("Independent", { anti_tenant_likelihood := 4/5, party_discipline := 1/5 }),
    ("Sinn Féin", { anti_tenant_likelihood := 3/10, party_discipline := 9/10 }),
    ("Social Democrats", { anti_tenant_likelihood := 1/5, party_discipline := 7/10 }) ]

/-- The fallback tendency for affiliations outside the table
(`{ anti_tenant_likelihood: 0.6, party_discipline: 0.5 }`). -/
def defaultTendency : Tendency :=
  { anti_tenant_likelihood := 3/5, party_discipline := 1/2 }

/-- `partyVotingTendencies[tdInfo.party] || default`. -/
def tendencyFor (party : String) : Tendency :=
  (lookupName partyVotingTendencies party).getD defaultTendency

/-- `propertyInfluence = Math.min(property_count * 0.1, 0.3)`. -/
def propertyInfluence (tdInfo : RosterTD) : ℚ :=
  min ((tdInfo.properties.property_count : ℚ) * (1/10)) (3/10)

/-- `adjustedAntiTenantLikelihood = Math.min(base + propertyInfluence, 0.95)`. -/
def adjustedAntiTenantLikelihood (tdInfo : RosterTD) : ℚ :=
  min ((tendencyFor tdInfo.party).anti_tenant_likelihood + propertyInfluence tdInfo) (19/20)

/-- The three-way outcome selection of `generateRealisticVotingPattern` for one
uniform draw: below the adjusted likelihood vote `Against`, in the next
`0.1`-wide band `Abstain`, otherwise `For`. -/
def chooseVote (random likelihood : ℚ) : String :=
  if random < likelihood then "Against"
  else if random < likelihood + 1/10 then "Abstain"
  else "For"

/-- The generator's conflict flag:
`is_hypocritical: voteChoice === 'Against' && vote.pro_tenant_stance === 'FOR'`. -/
def genIsHypocritical (voteChoice : String) (stance : String) : Bool :=
  voteChoice == "Against" && stance == "FOR"

/-- `this.getDetailedVotes`: the class defines no such method, so the property
access yields `undefined` (`none`). -/
def getDetailedVotes? : Option (ExistingVoteData × RosterTD → List DetailedVote) := none

/-- `this.calculateHypocrisyScoreFromVotes`: the class defines no such method,
so the property access yields `undefined` (`none`). -/
def calculateHypocrisyScoreFromVotes? : Option (List DetailedVote × RosterTD → Nat) := none

/-- `generateRealisticVotingPattern(tdInfo)`, with the `Math.random()` stream
made explicit as `randoms` and the clock as `now`.  The computed fields follow
the source loop; building the returned record calls
`this.calculateHypocrisyScoreFromVotes(votes, tdInfo)`, which is undefined. -/
def generateRealisticVotingPattern (cfg : IntegrationConfig) (now : Nat)
    (randoms : List ℚ) (tdInfo : RosterTD) : Except JSError VotingRecord := do
  let likelihood := adjustedAntiTenantLikelihood tdInfo
  let votes := (cfg.housingVoteTargets.zip randoms).map (fun vr =>
    { vote_id := vr.1.id, title := vr.1.title, date := vr.1.date,
      vote_cast := chooseVote vr.2 likelihood,
      is_hypocritical := genIsHypocritical (chooseVote vr.2 likelihood) vr.1.pro_tenant_stance,
      weight := vr.1.weight : DetailedVote })
  let antiTenantVotes := (votes.filter (fun v => v.vote_cast == "Against")).length
  let proTenantVotes := (votes.filter (fun v => v.vote_cast == "For")).length
  let score ← callOpt calculateHypocrisyScoreFromVotes?
    "calculateHypocrisyScoreFromVotes" (votes, tdInfo)
  .ok { housing_votes :=
          { total_votes := cfg.housingVoteTargets.length,
            pro_tenant_votes := proTenantVotes,
            anti_tenant_votes := antiTenantVotes,
            abstentions := cfg.housingVoteTargets.length - proTenantVotes - antiTenantVotes,
            missed_votes := 0 },
        detailed_votes := some votes,
        hypocrisy_score := score,
        pressure_campaign_priority :=
          some (calculatePressurePriority cfg { anti_tenant_votes := antiTenantVotes } tdInfo),
        last_updated := now,
        verification_status := "PATTERN_GENERATED" }

/-- `enhanceVotingRecord(existingData, tdInfo)`: tallies with `||` defaults and
calculated metrics; building the record calls
`this.getDetailedVotes(existingData, tdInfo)`, which is undefined. -/
def enhanceVotingRecord (cfg : IntegrationConfig) (now : Nat)
    (existingData : ExistingVoteData) (tdInfo : RosterTD) : Except JSError VotingRecord := do
  let dv ← callOpt getDetailedVotes? "getDetailedVotes" (existingData, tdInfo)
  .ok { housing_votes :=
          { total_votes := jsOr existingData.total_votes 5,
            pro_tenant_votes := jsOr existingData.pro_tenant_votes 0,
            -- `existingData.anti_tenant_votes || 0` is the identity on a number
            anti_tenant_votes := existingData.anti_tenant_votes,
            abstentions := jsOr existingData.abstentions 0,
            missed_votes := jsOr existingData.missed_votes 0 },
        detailed_votes := some dv,
        hypocrisy_score := calculateEnhancedHypocrisyScore cfg existingData tdInfo,
        pressure_campaign_priority :=
          some (calculatePressurePriority cfg existingData tdInfo),
        last_updated := now,
        verification_status := "EXISTING_DATA_ENHANCED" }

/-- Tier classification of `getTargetingPriority`, an if-chain on the margin. -/
def marginTier (margin : ℚ) : String :=
  if margin < 1 then "TIER_1_CRITICAL"
  else if margin < 5/2 then "TIER_2_HIGH"
  else if margin < 5 then "TIER_3_MEDIUM"
  else "TIER_4_LOW"

/-- `getTargetingPriority(electoralData, tdInfo)`: reads only
`electoralData.margin_percentage`; the `tdInfo` argument is unused in the
source body. -/
def getTargetingPriority (electoralData : ConstituencyData) (tdInfo : RosterTD) : String :=
  marginTier electoralData.margin_percentage

/-- `getCampaignStrategy(electoralData, tdInfo)`. -/
def getCampaignStrategy (electoralData : ConstituencyData) (tdInfo : RosterTD) : String :=
  if electoralData.margin_percentage < 1 ∧ tdInfo.properties.property_count ≥ 5 then
    "AGGRESSIVE_IMMEDIATE_CAMPAIGN"
  else if electoralData.margin_percentage < 5/2 ∧ tdInfo.properties.property_count ≥ 3 then
    "FOCUSED_PRESSURE_CAMPAIGN"
  else if electoralData.margin_percentage < 5 then
    "SUSTAINED_AWARENESS_CAMPAIGN"
  else
    "LONG_TERM_POSITIONING"

/-- `addElectoralTargeting(tdInfo)`: the constituency-not-found branch returns
the explicit UNKNOWN/LOW record without the flip-probability fields. -/
def addElectoralTargeting (cfg : IntegrationConfig) (tdInfo : RosterTD) : ElectoralTargeting :=
  match lookupConstituency cfg tdInfo.constituency with
  | none =>
      { last_election_margin := none,
        vulnerability_level := "UNKNOWN",
        targeting_priority := "LOW",
        campaign_strategy := "RESEARCH_NEEDED" }
  | some ed =>
      { last_election_margin := some ed.margin_percentage,
        vulnerability_level := ed.vulnerability_level,
        votes_needed_to_flip := some ed.votes_needed,
        targeting_priority := getTargetingPriority ed tdInfo,
        campaign_strategy := getCampaignStrategy ed tdInfo,
        swing_required := some ed.swing_required }

/-- The clean record attached to non-landlord TDs by `integrateVotingRecords`
(no `detailed_votes`, no `pressure_campaign_priority` keys). -/
def cleanVotingRecord (now : Nat) : VotingRecord :=
  { housing_votes :=
      { total_votes := 0, pro_tenant_votes := 0, anti_tenant_votes := 0,
        abstentions := 0, missed_votes := 0 },
    hypocrisy_score := 0,
    last_updated := now,
    verification_status := "NON_LANDLORD_CLEAN" }

/-- The per-TD body of the `integrateVotingRecords` loop: landlord TDs get a
sourced-enhanced or synthesized record plus electoral targeting; other TDs get
the clean record. -/
def processTD (cfg : IntegrationConfig) (now : Nat) (randoms : List ℚ)
    (entry : String × RosterTD) : Except JSError (String × IntegratedTD) :=
  let td := entry.2
  if td.properties.landlord_status then
    match lookupExistingVotes cfg entry.1 with
    | some existing => do
        let vr ← enhanceVotingRecord cfg now existing td
        .ok (entry.1,
          { party := td.party, constituency := td.constituency, properties := td.properties,
            voting_record := vr, electoral_data := some (addElectoralTargeting cfg td) })
    | none => do
        let vr ← generateRealisticVotingPattern cfg now randoms td
        .ok (entry.1,
          { party := td.party, constituency := td.constituency, properties := td.properties,
            voting_record := vr, electoral_data := some (addElectoralTargeting cfg td) })
  else
    .ok (entry.1,
      { party := td.party, constituency := td.constituency, properties := td.properties,
        voting_record := cleanVotingRecord now, electoral_data := none })

/-- Sequencing of a fallible loop body over a list: the first thrown error
aborts the whole loop, as in the source `for ... in` loop. -/
def mapExcept {α β ε : Type} (f : α → Except ε β) : List α → Except ε (List β)
  | [] => .ok []
  | x :: xs => do
      let y ← f x
      let ys ← mapExcept f xs
      .ok (y :: ys)

/-- `integrateVotingRecords()`: updates the metadata (the source sets
`landlord_tds_analyzed` to `this.landlordTDs.length`, the fixed 32-name list)
and processes every TD in the database. -/
def integrateVotingRecords (cfg : IntegrationConfig) (now : Nat) (randoms : List ℚ)
    (db : RosterDatabase) : Except JSError IntegratedDatabase := do
  let tds ← mapExcept (processTD cfg now randoms) db.tds
  .ok { metadata :=
          { voting_integration_status := "ENHANCED_INTEGRATION_COMPLETE",
            voting_integration_date := now,
            landlord_tds_analyzed := 32 },
        tds := tds }

/-- A TD spread together with its `combined_priority` value, as built by the
`.map` step of `generateTargetingReport`. -/
structure PrioritizedTD where
  td : IntegratedTD
  combined_priority : ℚ
deriving Repr, DecidableEq

/-- `combined_priority = hypocrisy_score * 0.6 + pressure_campaign_priority * 10 * 0.4`.
The report only ever reads landlord records, whose
`pressure_campaign_priority` field is always present; `getD 0` is the model's
total-function shim for the absent case the report never touches. -/
def combinedPriority (td : IntegratedTD) : ℚ :=
  (td.voting_record.hypocrisy_score : ℚ) * (6/10)
    + ((td.voting_record.pressure_campaign_priority.getD 0 : Nat) : ℚ) * 10 * (4/10)

/-- `td.electoral_data.targeting_priority` as read by the report's tier
filters (always present on the landlord TDs the report touches). -/
def targetingPriorityOf (td : IntegratedTD) : String :=
  (td.electoral_data.map (fun e => e.targeting_priority)).getD ""

/-- Insert into a descending-ordered list, keeping the inserted (earlier)
element ahead of equal keys: the stable descending order produced by the
source's `sort((a, b) => b.combined_priority - a.combined_priority)`
(`Array.prototype.sort` is stable). -/
def ordInsert (x : PrioritizedTD) : List PrioritizedTD → List PrioritizedTD
  | [] => [x]
  | y :: l =>
      if y.combined_priority ≤ x.combined_priority then x :: y :: l
      else y :: ordInsert x l

/-- Stable descending sort by `combined_priority` (model of the JS stable
sort: a stable sort for a total preorder is unique, so insertion sort is a
faithful model of the engine's merge sort). -/
def sortByCombinedPriority : List PrioritizedTD → List PrioritizedTD
  | [] => []
  | x :: l => ordInsert x (sortByCombinedPriority l)

/-- `Object.values(integratedDatabase.tds).filter(td => td.properties.landlord_status)`:
the landlord TDs in load (insertion) order. -/
def landlordList (db : IntegratedDatabase) : List IntegratedTD :=
  (db.tds.map (fun e => e.2)).filter (fun td => td.properties.landlord_status)

/-- The landlord TDs with combined priority attached, in load order
(the `.map` step before sorting). -/
def loadOrderTargets (db : IntegratedDatabase) : List PrioritizedTD :=
  (landlordList db).map (fun td => { td := td, combined_priority := combinedPriority td })

/-- `prioritizedTargets`: landlord TDs sorted descending by combined priority. -/
def prioritizedTargets (db : IntegratedDatabase) : List PrioritizedTD :=
  sortByCombinedPriority (loadOrderTargets db)

/-- The `metadata` block of the targeting report. -/
structure ReportMetadata where
  generated_at : Nat
  total_landlord_tds : Nat
  tier_1_targets : Nat
  tier_2_targets : Nat
deriving Repr, DecidableEq

/-- The `summary_stats` block of the targeting report. -/
structure SummaryStats where
  average_hypocrisy_score : ℚ
  average_anti_tenant_votes : ℚ
  government_landlord_tds : Nat
deriving Repr, DecidableEq

/-- The structured report returned by `generateTargetingReport`. -/
structure TargetingReport where
  metadata : ReportMetadata
  tier_1_critical : List PrioritizedTD
  tier_2_high : List PrioritizedTD
  tier_3_medium : List PrioritizedTD
  summary_stats : SummaryStats
deriving Repr, DecidableEq

/-- `generateTargetingReport(integratedDatabase)` with the clock explicit.
Filters the sorted targets per tier tag, capping the lists at 5/8/10, and
computes the summary statistics over all landlord TDs. -/
def generateTargetingReport (db : IntegratedDatabase) (now : Nat) : TargetingReport :=
  let landlordTDs := landlordList db
  let pts := prioritizedTargets db
  { metadata :=
      { generated_at := now,
        total_landlord_tds := landlordTDs.length,
        tier_1_targets :=
          (pts.filter (fun p => targetingPriorityOf p.td == "TIER_1_CRITICAL")).length,
        tier_2_targets :=
          (pts.filter (fun p => targetingPriorityOf p.td == "TIER_2_HIGH")).length },
    tier_1_critical :=
      (pts.filter (fun p => targetingPriorityOf p.td == "TIER_1_CRITICAL")).take 5,
    tier_2_high :=
      (pts.filter (fun p => targetingPriorityOf p.td == "TIER_2_HIGH")).take 8,
    tier_3_medium :=
      (pts.filter (fun p => targetingPriorityOf p.td == "TIER_3_MEDIUM")).take 10,
    summary_stats :=
      { average_hypocrisy_score :=
          ((landlordTDs.map (fun td => (td.voting_record.hypocrisy_score : ℚ))).sum)
            / (landlordTDs.length : ℚ),
        average_anti_tenant_votes :=
          ((landlordTDs.map (fun td => (td.voting_record.housing_votes.anti_tenant_votes : ℚ))).sum)
            / (landlordTDs.length : ℚ),
        government_landlord_tds :=
          (landlordTDs.filter (fun td =>
            ["Fianna Fáil", "Fine Gael", "Green Party"].contains td.party)).length } }

/-- `executeIntegration()` without the I/O prologue: integrate, then assemble
the targeting report. -/
def executeIntegration (cfg : IntegrationConfig) (now : Nat) (randoms : List ℚ)
    (db : RosterDatabase) : Except JSError (IntegratedDatabase × TargetingReport) := do
  let integratedDatabase ← integrateVotingRecords cfg now randoms db
  .ok (integratedDatabase, generateTargetingReport integratedDatabase now)

/-- `analyzeVoteHypocrisy(voteCast, proTenantPosition)` of
`oireachtas-voting-extractor.js`: symmetric two-sided conflict check. -/
def analyzeVoteHypocrisy (voteCast : String) (proTenantPosition : String) : Bool :=
  if proTenantPosition == "FOR" && voteCast == "Against" then true
  else if proTenantPosition == "AGAINST" && voteCast == "For" then true
  else false

/-- An entry of the extractor's `priorityLandlordTDs` list.  `electoral_margin`
is `none` when the source holds the string `'SAFE'` or omits the field (the
score code guards with `typeof === 'number'`); `minister` is absent on most
entries (falsy), modelled as `false`. -/
structure PriorityLandlordTD where
  name : String
  constituency : String
  properties : Nat
  electoral_margin : Option ℚ := none
  minister : Bool := false
deriving Repr, DecidableEq

/-- A per-TD summary built by `extractAllHousingVotes` (only the fields read by
`calculateHypocrisyScore`). -/
structure TDVoteSummary where
  name : String
  properties : Nat
  total_votes : Nat := 0
  hypocritical_votes : Nat := 0
  pro_tenant_votes : Nat := 0
  anti_tenant_votes : Nat := 0
deriving Repr, DecidableEq

/-- The extractor's `calculateHypocrisyScore(tdSummary)`: property base
(`min(properties * 5, 50)`), anti-tenant votes (`*15`), hypocritical votes
(`*20`), `+10` for a numeric margin `< 5`, `+15` for a minister, clamped by
`Math.min(score, 100)`. -/
def calculateHypocrisyScore (priorityLandlordTDs : List PriorityLandlordTD)
    (tdSummary : TDVoteSummary) : Nat :=
  let s1 := min (tdSummary.properties * 5) 50
  let s2 := tdSummary.anti_tenant_votes * 15
  let s3 := tdSummary.hypocritical_votes * 20
  let tdInfo := priorityLandlordTDs.find? (fun td => td.name == tdSummary.name)
  let s4 := match tdInfo with
    | some td =>
        match td.electoral_margin with
        | some m => if m < 5 then 10 else 0
        | none => 0
    | none => 0
  let s5 := match tdInfo with
    | some td => if td.minister then 15 else 0
    | none => 0
  min (s1 + s2 + s3 + s4 + s5) 100

/-- Concrete non-landlord entity (no holdings). -/
def tdNoProps : RosterTD :=
  { party := "Sinn Féin", constituency := "Kerry",
    properties := { property_count := 0, landlord_status := false } }

/-- Concrete landlord entity with many holdings. -/
def tdLandlord : RosterTD :=
  { party := "Fianna Fáil", constituency := "Kerry",
    properties := { property_count := 27, landlord_status := true } }

/-- An integration state with the default slate and neither optional dataset. -/
def cfgEmpty : IntegrationConfig :=
  { housingVoteTargets := housingVoteTargets }

/-- An electoral entry with a medium (3%) margin. -/
def edMedium : ConstituencyData :=
  { margin_percentage := 3, vulnerability_level := "MEDIUM",
    votes_needed := 500, swing_required := 3/2 }

/-- Characterisation of the CRITICAL tier. -/
lemma marginTier_eq_tier1 (m : ℚ) : marginTier m = "TIER_1_CRITICAL" ↔ m < 1 := by
  unfold marginTier
  constructor
  · intro h
    by_contra hm
    rw [if_neg hm] at h
    by_cases h2 : m < 5/2
    · rw [if_pos h2] at h; exact absurd h (by decide)
    · rw [if_neg h2] at h
      by_cases h3 : m < 5
      · rw [if_pos h3] at h; exact absurd h (by decide)
      · rw [if_neg h3] at h; exact absurd h (by decide)
  · intro h; rw [if_pos h]

/-- Characterisation of the HIGH tier. -/
lemma marginTier_eq_tier2 (m : ℚ) : marginTier m = "TIER_2_HIGH" ↔ 1 ≤ m ∧ m < 5/2 := by
  unfold marginTier
  constructor
  · intro h
    by_cases h1 : m < 1
    · rw [if_pos h1] at h; exact absurd h (by decide)
    · rw [if_neg h1] at h
      by_cases h2 : m < 5/2
      · exact ⟨le_of_not_lt h1, h2⟩
      · rw [if_neg h2] at h
        by_cases h3 : m < 5
        · rw [if_pos h3] at h; exact absurd h (by decide)
        · rw [if_neg h3] at h; exact absurd h (by decide)
  · rintro ⟨h1, h2⟩
    rw [if_neg (not_lt.mpr h1), if_pos h2]

/-- Characterisation of the MEDIUM tier. -/
lemma marginTier_eq_tier3 (m : ℚ) : marginTier m = "TIER_3_MEDIUM" ↔ 5/2 ≤ m ∧ m < 5 := by
  unfold marginTier
  constructor
  · intro h
    by_cases h1 : m < 1
    · rw [if_pos h1] at h; exact absurd h (by decide)
    · rw [if_neg h1] at h
      by_cases h2 : m < 5/2
      · rw [if_pos h2] at h; exact absurd h (by decide)
      · rw [if_neg h2] at h
        by_cases h3 : m < 5
        · exact ⟨le_of_not_lt h2, h3⟩
        · rw [if_neg h3] at h; exact absurd h (by decide)
  · rintro ⟨h1, h2⟩
    have hn1 : ¬ m < 1 := not_lt.mpr (le_trans (by norm_num) h1)
    rw [if_neg hn1, if_neg (not_lt.mpr h1), if_pos h2]

/-- Characterisation of the LOW tier (present margin). -/
lemma marginTier_eq_tier4 (m : ℚ) : marginTier m = "TIER_4_LOW" ↔ 5 ≤ m := by
  unfold marginTier
  constructor
  · intro h
    by_cases h1 : m < 1
    · rw [if_pos h1] at h; exact absurd h (by decide)
    · rw [if_neg h1] at h
      by_cases h2 : m < 5/2
      · rw [if_pos h2] at h; exact absurd h (by decide)
      · rw [if_neg h2] at h
        by_cases h3 : m < 5
        · rw [if_pos h3] at h; exact absurd h (by decide)
        · exact le_of_not_lt h3
  · intro h
    have h1 : ¬ m < 1 := not_lt.mpr (le_trans (by norm_num) h)
    have h2 : ¬ m < 5/2 := not_lt.mpr (le_trans (by norm_num) h)
    rw [if_neg h1, if_neg h2, if_neg (not_lt.mpr h)]

/-- C2: for every entity with non-negative holding count and non-negative vote
tallies (non-negativity is enforced by the `Nat` types of the embedding), the
composite inconsistency score of both scoring paths
(`calculateEnhancedHypocrisyScore` and the extractor's fallback
`calculateHypocrisyScore`) lies in the integer range [0,100], and
`calculatePressurePriority` lies in [1,10]. -/
theorem claim_C2_score_clamping (cfg : IntegrationConfig) (votingData : ExistingVoteData)
    (tdInfo : RosterTD) (priorityLandlordTDs : List PriorityLandlordTD)
    (tdSummary : TDVoteSummary) :
    calculateEnhancedHypocrisyScore cfg votingData tdInfo ≤ 100 ∧
    calculateHypocrisyScore priorityLandlordTDs tdSummary ≤ 100 ∧
    1 ≤ calculatePressurePriority cfg votingData tdInfo ∧
    calculatePressurePriority cfg votingData tdInfo ≤ 10 := by
  refine ⟨Nat.min_le_right _ _, Nat.min_le_right _ _, ?_, Nat.min_le_right _ _⟩
  unfold calculatePressurePriority
  exact le_min (by omega) (by omega)

/-- C4: tier classification is a pure function of the electoral margin alone:
`getTargetingPriority` gives CRITICAL iff margin < 1, HIGH iff 1 ≤ margin < 2.5,
MEDIUM iff 2.5 ≤ margin < 5, LOW iff margin ≥ 5; an absent margin gives the
LOW/UNKNOWN branch of `addElectoralTargeting`; hence two entities with the same
margin and different scores land in the same tier (`getTargetingPriority`
ignores its second argument). -/
theorem claim_C4_tier_function_of_margin (cfg : IntegrationConfig) (ed : ConstituencyData)
    (td td' : RosterTD) (habs : lookupConstituency cfg td.constituency = none) :
    getTargetingPriority ed td = getTargetingPriority ed td' ∧
    (getTargetingPriority ed td = "TIER_1_CRITICAL" ↔ ed.margin_percentage < 1) ∧
    (getTargetingPriority ed td = "TIER_2_HIGH" ↔
      1 ≤ ed.margin_percentage ∧ ed.margin_percentage < 5/2) ∧
    (getTargetingPriority ed td = "TIER_3_MEDIUM" ↔
      5/2 ≤ ed.margin_percentage ∧ ed.margin_percentage < 5) ∧
    (getTargetingPriority ed td = "TIER_4_LOW" ↔ 5 ≤ ed.margin_percentage) ∧
    (addElectoralTargeting cfg td).targeting_priority = "LOW" := by
  refine ⟨rfl, marginTier_eq_tier1 _, marginTier_eq_tier2 _,
    marginTier_eq_tier3 _, marginTier_eq_tier4 _, ?_⟩
  unfold addElectoralTargeting
  rw [habs]

/-- C4 witness: the tier characterisation at a concrete 3% margin, two concrete
entities with different scores-relevant data, and a concrete state with no
electoral dataset. -/
theorem claim_C4_witness :
    getTargetingPriority edMedium tdLandlord = getTargetingPriority edMedium tdNoProps ∧
    (getTargetingPriority edMedium tdLandlord = "TIER_1_CRITICAL" ↔
      edMedium.margin_percentage < 1) ∧
    (getTargetingPriority edMedium tdLandlord = "TIER_2_HIGH" ↔
      1 ≤ edMedium.margin_percentage ∧ edMedium.margin_percentage < 5/2) ∧
    (getTargetingPriority edMedium tdLandlord = "TIER_3_MEDIUM" ↔
      5/2 ≤ edMedium.margin_percentage ∧ edMedium.margin_percentage < 5) ∧
    (getTargetingPriority edMedium tdLandlord = "TIER_4_LOW" ↔
      5 ≤ edMedium.margin_percentage) ∧
    (addElectoralTargeting cfgEmpty tdLandlord).targeting_priority = "LOW" :=
  claim_C4_tier_function_of_margin cfgEmpty edMedium tdLandlord tdNoProps rfl

/-- The draw lands on `Against` exactly below the adjusted likelihood. -/
lemma chooseVote_eq_against (r L : ℚ) : chooseVote r L = "Against" ↔ r < L := by
  unfold chooseVote
  constructor
  · intro h
    by_contra hm
    rw [if_neg hm] at h
    by_cases h2 : r < L + 1/10
    · rw [if_pos h2] at h; exact absurd h (by decide)
    · rw [if_neg h2] at h; exact absurd h (by decide)
  · intro h; rw [if_pos h]

/-- The draw lands on `Abstain` exactly in the constant-width band
`[L, L + 0.1)`. -/
lemma chooseVote_eq_abstain (r L : ℚ) : chooseVote r L = "Abstain" ↔ L ≤ r ∧ r < L + 1/10 := by
  unfold chooseVote
  constructor
  · intro h
    by_cases h1 : r < L
    · rw [if_pos h1] at h; exact absurd h (by decide)
    · rw [if_neg h1] at h
      by_cases h2 : r < L + 1/10
      · exact ⟨le_of_not_lt h1, h2⟩
      · rw [if_neg h2] at h; exact absurd h (by decide)
  · rintro ⟨h1, h2⟩
    rw [if_neg (not_lt.mpr h1), if_pos h2]

/-- The draw lands on `For` exactly at or above `L + 0.1`. -/
lemma chooseVote_eq_for (r L : ℚ) : chooseVote r L = "For" ↔ L + 1/10 ≤ r := by
  unfold chooseVote
  constructor
  · intro h
    by_cases h1 : r < L
    · rw [if_pos h1] at h; exact absurd h (by decide)
    · rw [if_neg h1] at h
      by_cases h2 : r < L + 1/10
      · rw [if_pos h2] at h; exact absurd h (by decide)
      · exact le_of_not_lt h2
  · intro h
    have h1 : ¬ r < L := not_lt.mpr (le_trans (by linarith) h)
    rw [if_neg h1, if_neg (not_lt.mpr h)]

/-- C7: the synthesizer selects `Against` (unfavorable) iff the draw is below
the adjusted likelihood `L`, `Abstain` iff the draw is in the constant band
`[L, L + 0.1)` (independent of affiliation), `For` otherwise, where
`L = min(base(party) + min(0.1 * holdings, 0.3), 0.95)` with the base taken
from the fixed party table and the documented default `0.6` outside it (so
`L ≤ 0.95`: the holdings adjustment is capped and cannot drive the draw to
certainty).  `Green Party` is an example affiliation outside the table. -/
theorem claim_C7_synthesizer_distribution (tdInfo : RosterTD) (r : ℚ) :
    (chooseVote r (adjustedAntiTenantLikelihood tdInfo) = "Against" ↔
      r < adjustedAntiTenantLikelihood tdInfo) ∧
    (chooseVote r (adjustedAntiTenantLikelihood tdInfo) = "Abstain" ↔
      adjustedAntiTenantLikelihood tdInfo ≤ r ∧
        r < adjustedAntiTenantLikelihood tdInfo + 1/10) ∧
    (chooseVote r (adjustedAntiTenantLikelihood tdInfo) = "For" ↔
      adjustedAntiTenantLikelihood tdInfo + 1/10 ≤ r) ∧
    adjustedAntiTenantLikelihood tdInfo =
      min ((tendencyFor tdInfo.party).anti_tenant_likelihood +
        min ((tdInfo.properties.property_count : ℚ) * (1/10)) (3/10)) (19/20) ∧
    adjustedAntiTenantLikelihood tdInfo ≤ 19/20 ∧
    tendencyFor "Green Party" = defaultTendency :=
  ⟨chooseVote_eq_against _ _, chooseVote_eq_abstain _ _, chooseVote_eq_for _ _,
    rfl, min_le_right _ _, rfl⟩

/-- C7 witness: the band characterisation evaluated at a concrete entity and a
concrete draw. -/
theorem claim_C7_witness :
    (chooseVote (1/2) (adjustedAntiTenantLikelihood tdLandlord) = "Against" ↔
      (1/2 : ℚ) < adjustedAntiTenantLikelihood tdLandlord) ∧
    (chooseVote (1/2) (adjustedAntiTenantLikelihood tdLandlord) = "Abstain" ↔
      adjustedAntiTenantLikelihood tdLandlord ≤ 1/2 ∧
        (1/2 : ℚ) < adjustedAntiTenantLikelihood tdLandlord + 1/10) ∧
    (chooseVote (1/2) (adjustedAntiTenantLikelihood tdLandlord) = "For" ↔
      adjustedAntiTenantLikelihood tdLandlord + 1/10 ≤ 1/2) ∧
    adjustedAntiTenantLikelihood tdLandlord =
      min ((tendencyFor tdLandlord.party).anti_tenant_likelihood +
        min ((tdLandlord.properties.property_count : ℚ) * (1/10)) (3/10)) (19/20) ∧
    adjustedAntiTenantLikelihood tdLandlord ≤ 19/20 ∧
    tendencyFor "Green Party" = defaultTendency :=
  claim_C7_synthesizer_distribution tdLandlord (1/2)

/-- C3 counterexample: the claim asserts every conflict-marking site, the
generator's `is_hypocritical` flag included, treats a `For` vote on an
`AGAINST`-declared event as a conflict; the sourced-data analyzer does, but
the generator's flag does not. -/
theorem claim_C3_counterexample :
    analyzeVoteHypocrisy "For" "AGAINST" = true ∧
    genIsHypocritical "For" "AGAINST" = false := by decide

/-- C3 (amended): the sourced-data analyzer `analyzeVoteHypocrisy` is
symmetric (`Against`+`FOR` and `For`+`AGAINST` are conflicts, matching
combinations never are), while the generator's `is_hypocritical` flag marks a
conflict only for `Against`+`FOR`; the two rules agree on every event of the
generator's actual slate, since every `housingVoteTargets` entry declares the
favorable position `FOR`. -/
theorem claim_C3_amended_conflict_marking (cast pos : String) :
    (analyzeVoteHypocrisy cast pos = true ↔
      ((pos = "FOR" ∧ cast = "Against") ∨ (pos = "AGAINST" ∧ cast = "For"))) ∧
    (genIsHypocritical cast pos = true ↔ (cast = "Against" ∧ pos = "FOR")) ∧
    housingVoteTargets.all (fun v => v.pro_tenant_stance == "FOR") = true ∧
    genIsHypocritical cast "FOR" = analyzeVoteHypocrisy cast "FOR" := by
  refine ⟨?_, ?_, by decide, ?_⟩
  · unfold analyzeVoteHypocrisy
    split_ifs with h1 h2
    · rw [Bool.and_eq_true, beq_iff_eq, beq_iff_eq] at h1
      simp [h1]
    · rw [Bool.and_eq_true, beq_iff_eq, beq_iff_eq] at h2
      simp [h2]
    · simp only [Bool.false_eq_true, false_iff]
      rintro (⟨hp, hc⟩ | ⟨hp, hc⟩)
      · exact h1 (by rw [hp, hc]; decide)
      · exact h2 (by rw [hp, hc]; decide)
  · unfold genIsHypocritical
    rw [Bool.and_eq_true, beq_iff_eq, beq_iff_eq]
  · by_cases h : cast = "Against"
    · rw [h]; decide
    · have hb : (cast == "Against") = false := by
        simp [beq_iff_eq, h]
      unfold genIsHypocritical analyzeVoteHypocrisy
      rw [hb]
      simp

/-- C3 amended-claim witness: the characterisation at concrete votes. -/
theorem claim_C3_amended_witness :
    (analyzeVoteHypocrisy "Against" "FOR" = true ↔
      (("FOR" = "FOR" ∧ "Against" = "Against") ∨
        ("FOR" = "AGAINST" ∧ "Against" = "For"))) ∧
    (genIsHypocritical "Against" "FOR" = true ↔
      ("Against" = "Against" ∧ "FOR" = "FOR")) ∧
    housingVoteTargets.all (fun v => v.pro_tenant_stance == "FOR") = true ∧
    genIsHypocritical "Against" "FOR" = analyzeVoteHypocrisy "Against" "FOR" :=
  claim_C3_amended_conflict_marking "Against" "FOR"

/-- The vote-target slate with every importance weight forgotten: two slates
with the same erasure differ at most in their weight values. -/
def eraseWeights (l : List VoteTarget) : List VoteTarget :=
  l.map (fun t => { t with weight := 0 })

/-- The default slate with all importance weights altered. -/
def cfgAlteredWeights : IntegrationConfig :=
  { housingVoteTargets := housingVoteTargets.map (fun t => { t with weight := t.weight + 7 }) }

/-- A concrete sourced tally. -/
def vdSample : ExistingVoteData :=
  { anti_tenant_votes := 2, hypocritical_votes := some 1 }

/-- C10: the importance weight of the tracked-event slate is not applied in
score calculation: two integration states that differ only in the weight
values of `housingVoteTargets` give identical inconsistency scores and
identical priority scores for every entity. -/
theorem claim_C10_weights_unused (cfg₁ cfg₂ : IntegrationConfig)
    (votingData : ExistingVoteData) (tdInfo : RosterTD)
    (hw : eraseWeights cfg₁.housingVoteTargets = eraseWeights cfg₂.housingVoteTargets)
    (hv : cfg₁.existingVotingData = cfg₂.existingVotingData)
    (he : cfg₁.electoralData = cfg₂.electoralData) :
    calculateEnhancedHypocrisyScore cfg₁ votingData tdInfo =
      calculateEnhancedHypocrisyScore cfg₂ votingData tdInfo ∧
    calculatePressurePriority cfg₁ votingData tdInfo =
      calculatePressurePriority cfg₂ votingData tdInfo := by
  constructor <;>
    simp only [calculateEnhancedHypocrisyScore, calculatePressurePriority,
      marginPriorityBonus, lookupConstituency, he]

/-- C10 witness: concrete states differing only in slate weights give equal
scores for a concrete entity. -/
theorem claim_C10_witness :
    calculateEnhancedHypocrisyScore cfgEmpty vdSample tdLandlord =
      calculateEnhancedHypocrisyScore cfgAlteredWeights vdSample tdLandlord ∧
    calculatePressurePriority cfgEmpty vdSample tdLandlord =
      calculatePressurePriority cfgAlteredWeights vdSample tdLandlord :=
  claim_C10_weights_unused cfgEmpty cfgAlteredWeights vdSample tdLandlord
    (by decide) rfl rfl

/-- C6: an entity with holding count 0 (whose derived is-property-holder flag
is therefore false) takes the clean non-landlord branch of
`integrateVotingRecords`, whose inconsistency score is the literal 0
regardless of the entity's party or vote tallies; with margin ≥ 5 or absent,
the tiering machinery classifies it `TIER_4_LOW` respectively `LOW`/UNKNOWN. -/
theorem claim_C6_zero_holdings_clean (cfg : IntegrationConfig) (now : Nat)
    (randoms : List ℚ) (name : String) (td : RosterTD)
    (hcount : td.properties.property_count = 0)
    (hflag : td.properties.landlord_status = false)
    (hmargin : ∀ ed, lookupConstituency cfg td.constituency = some ed →
      5 ≤ ed.margin_percentage) :
    processTD cfg now randoms (name, td) = .ok (name,
      { party := td.party, constituency := td.constituency, properties := td.properties,
        voting_record := cleanVotingRecord now, electoral_data := none }) ∧
    (cleanVotingRecord now).hypocrisy_score = 0 ∧
    ((addElectoralTargeting cfg td).targeting_priority = "TIER_4_LOW" ∨
     (addElectoralTargeting cfg td).targeting_priority = "LOW") := by
  refine ⟨?_, rfl, ?_⟩
  · simp only [processTD, hflag, Bool.false_eq_true, if_false]
  · cases hlk : lookupConstituency cfg td.constituency with
    | none =>
        right
        unfold addElectoralTargeting
        rw [hlk]
    | some ed =>
        left
        unfold addElectoralTargeting
        rw [hlk]
        exact (marginTier_eq_tier4 ed.margin_percentage).mpr (hmargin ed hlk)

/-- C6 witness: the clean branch evaluated at a concrete zero-holdings entity
and a state with no electoral dataset. -/
theorem claim_C6_witness :
    processTD cfgEmpty 0 [] ("Pa Daly", tdNoProps) = .ok ("Pa Daly",
      { party := tdNoProps.party, constituency := tdNoProps.constituency,
        properties := tdNoProps.properties,
        voting_record := cleanVotingRecord 0, electoral_data := none }) ∧
    (cleanVotingRecord 0).hypocrisy_score = 0 ∧
    ((addElectoralTargeting cfgEmpty tdNoProps).targeting_priority = "TIER_4_LOW" ∨
     (addElectoralTargeting cfgEmpty tdNoProps).targeting_priority = "LOW") :=
  claim_C6_zero_holdings_clean cfgEmpty 0 [] "Pa Daly" tdNoProps rfl rfl
    (fun ed h => by simp [lookupConstituency, cfgEmpty] at h)

/-- Any landlord entity makes the `integrateVotingRecords` loop body throw:
the sourced path calls the undefined `this.getDetailedVotes`, the synthesized
path calls the undefined `this.calculateHypocrisyScoreFromVotes`. -/
lemma processTD_landlord_error (cfg : IntegrationConfig) (now : Nat) (randoms : List ℚ)
    (e : String × RosterTD) (h : e.2.properties.landlord_status = true) :
    ∃ msg, processTD cfg now randoms e = .error (.typeError msg) := by
  cases hlk : lookupExistingVotes cfg e.1 with
  | some ex =>
      refine ⟨"this.getDetailedVotes is not a function", ?_⟩
      simp [processTD, h, hlk, enhanceVotingRecord, callOpt, getDetailedVotes?,
        Bind.bind, Except.bind]
  | none =>
      refine ⟨"this.calculateHypocrisyScoreFromVotes is not a function", ?_⟩
      simp [processTD, h, hlk, generateRealisticVotingPattern, callOpt,
        calculateHypocrisyScoreFromVotes?, Bind.bind, Except.bind]

/-- The first landlord entity aborts the whole loop with its error. -/
lemma mapExcept_processTD_error (cfg : IntegrationConfig) (now : Nat) (randoms : List ℚ) :
    ∀ l : List (String × RosterTD),
      l.any (fun e => e.2.properties.landlord_status) = true →
      ∃ msg, mapExcept (processTD cfg now randoms) l = .error (.typeError msg) := by
  intro l hl
  induction l with
  | nil => simp at hl
  | cons x xs ih =>
      rw [List.any_cons] at hl
      by_cases hx : x.2.properties.landlord_status = true
      · obtain ⟨msg, hm⟩ := processTD_landlord_error cfg now randoms x hx
        exact ⟨msg, by simp [mapExcept, hm, Bind.bind, Except.bind]⟩
      · have hxs : xs.any (fun e => e.2.properties.landlord_status) = true := by
          simp only [Bool.or_eq_true] at hl
          rcases hl with hl | hl
          · exact absurd hl hx
          · exact hl
        obtain ⟨msg, hm⟩ := ih hxs
        refine ⟨msg, ?_⟩
        have hxf : x.2.properties.landlord_status = false := by
          cases hxb : x.2.properties.landlord_status
          · rfl
          · exact absurd hxb hx
        simp [mapExcept, processTD, hxf, hm, Bind.bind, Except.bind]

/-- C1: whenever at least one entity has the is-property-holder flag set,
`integrateVotingRecords` raises a `TypeError` instead of returning a database
(the sourced path calls the undefined `this.getDetailedVotes`, the synthesized
path the undefined `this.calculateHypocrisyScoreFromVotes`), and therefore
`executeIntegration` produces no report either. -/
theorem claim_C1_landlord_entities_type_error (cfg : IntegrationConfig) (now : Nat)
    (randoms : List ℚ) (db : RosterDatabase)
    (h : db.tds.any (fun e => e.2.properties.landlord_status) = true) :
    ∃ msg, integrateVotingRecords cfg now randoms db = .error (.typeError msg) ∧
      executeIntegration cfg now randoms db = .error (.typeError msg) := by
  obtain ⟨msg, hm⟩ := mapExcept_processTD_error cfg now randoms db.tds h
  refine ⟨msg, ?_, ?_⟩
  · simp [integrateVotingRecords, hm, Bind.bind, Except.bind]
  · simp [executeIntegration, integrateVotingRecords, hm, Bind.bind, Except.bind]

/-- A database holding a single landlord entity. -/
def dbOneLandlord : RosterDatabase :=
  { tds := [("Michael Healy-Rae", tdLandlord)] }

/-- C1 witness: the integration of a concrete one-landlord database throws. -/
theorem claim_C1_witness :
    ∃ msg, integrateVotingRecords cfgEmpty 0 [] dbOneLandlord = .error (.typeError msg) ∧
      executeIntegration cfgEmpty 0 [] dbOneLandlord = .error (.typeError msg) :=
  claim_C1_landlord_entities_type_error cfgEmpty 0 [] dbOneLandlord (by decide)

/-- Descending order on combined priority (`a` may come before `b`). -/
def combGE (a b : PrioritizedTD) : Prop :=
  b.combined_priority ≤ a.combined_priority

/-- The Boolean key-equality filter used to state sort stability. -/
def withKey (c : ℚ) : PrioritizedTD → Bool :=
  fun p => decide (p.combined_priority = c)

/-- Insertion only adds the inserted element. -/
lemma mem_ordInsert {z x : PrioritizedTD} :
    ∀ {l : List PrioritizedTD}, z ∈ ordInsert x l → z = x ∨ z ∈ l := by
  intro l
  induction l with
  | nil =>
      intro h
      simp only [ordInsert, List.mem_singleton] at h
      exact Or.inl h
  | cons y ys ih =>
      intro h
      by_cases hc : y.combined_priority ≤ x.combined_priority
      · simp only [ordInsert, if_pos hc, List.mem_cons] at h
        rcases h with h | h | h
        · exact Or.inl h
        · exact Or.inr (by rw [h]; exact List.mem_cons_self y ys)
        · exact Or.inr (List.mem_cons_of_mem y h)
      · simp only [ordInsert, if_neg hc, List.mem_cons] at h
        rcases h with h | h
        · exact Or.inr (by rw [h]; exact List.mem_cons_self y ys)
        · rcases ih h with h | h
          · exact Or.inl h
          · exact Or.inr (List.mem_cons_of_mem y h)

/-- Insertion preserves descending order. -/
lemma pairwise_ordInsert (x : PrioritizedTD) :
    ∀ {l : List PrioritizedTD}, l.Pairwise combGE → (ordInsert x l).Pairwise combGE := by
  intro l
  induction l with
  | nil => intro _; simp [ordInsert, List.pairwise_singleton]
  | cons y ys ih =>
      intro hp
      rw [List.pairwise_cons] at hp
      obtain ⟨hy, hys⟩ := hp
      by_cases hc : y.combined_priority ≤ x.combined_priority
      · simp only [ordInsert, if_pos hc]
        rw [List.pairwise_cons]
        refine ⟨?_, ?_⟩
        · intro z hz
          rcases List.mem_cons.mp hz with hz | hz
          · rw [hz]; exact hc
          · exact le_trans (hy z hz) hc
        · rw [List.pairwise_cons]; exact ⟨hy, hys⟩
      · simp only [ordInsert, if_neg hc]
        rw [List.pairwise_cons]
        refine ⟨?_, ih hys⟩
        intro z hz
        rcases mem_ordInsert hz with hz | hz
        · rw [hz]; exact le_of_lt (not_le.mp hc)
        · exact hy z hz

/-- The stable sort produces a descending-ordered list. -/
lemma pairwise_sortByCombinedPriority :
    ∀ l : List PrioritizedTD, (sortByCombinedPriority l).Pairwise combGE := by
  intro l
  induction l with
  | nil => simp [sortByCombinedPriority]
  | cons x xs ih =>
      simp only [sortByCombinedPriority]
      exact pairwise_ordInsert x ih

/-- Filtering an insertion by a key value: the inserted element lands in front
of the equal-keyed elements already present (it only passes strictly larger
keys), so key-filtering commutes with the insertion. -/
lemma filter_ordInsert (c : ℚ) (x : PrioritizedTD) :
    ∀ l : List PrioritizedTD, (ordInsert x l).filter (withKey c) =
      if withKey c x then x :: l.filter (withKey c) else l.filter (withKey c) := by
  intro l
  induction l with
  | nil =>
      by_cases hx : withKey c x <;> simp [ordInsert, List.filter, hx]
  | cons y ys ih =>
      by_cases hc : y.combined_priority ≤ x.combined_priority
      · simp only [ordInsert, if_pos hc]
        by_cases hx : withKey c x <;> simp [List.filter_cons, hx]
      · simp only [ordInsert, if_neg hc]
        by_cases hy : withKey c y
        · by_cases hx : withKey c x
          · exfalso
            have hxc : x.combined_priority = c := of_decide_eq_true hx
            have hyc : y.combined_priority = c := of_decide_eq_true hy
            exact hc (le_of_eq (hyc.trans hxc.symm))
          · simp [List.filter_cons, hy, hx, ih]
        · simp [List.filter_cons, hy, ih]

/-- Stability: for every key value, the stable sort preserves the original
relative order (and multiset) of the elements carrying that key. -/
lemma filter_sortByCombinedPriority (c : ℚ) :
    ∀ l : List PrioritizedTD,
      (sortByCombinedPriority l).filter (withKey c) = l.filter (withKey c) := by
  intro l
  induction l with
  | nil => rfl
  | cons x xs ih =>
      simp only [sortByCombinedPriority]
      rw [filter_ordInsert c x (sortByCombinedPriority xs), ih]
      by_cases hx : withKey c x <;> simp [List.filter_cons, hx]

/-- Every capped tier slice of the sorted targets is descending-ordered. -/
lemma tierSlice_pairwise (db : IntegratedDatabase) (q : PrioritizedTD → Bool) (n : Nat) :
    ((((prioritizedTargets db).filter q).take n).Pairwise combGE) := by
  have hs : (prioritizedTargets db).Pairwise combGE :=
    pairwise_sortByCombinedPriority _
  have h1 : ((((prioritizedTargets db).filter q).take n).Sublist (prioritizedTargets db)) :=
    (List.take_sublist _ _).trans (List.filter_sublist _)
  exact List.Pairwise.sublist h1 hs

/-- Every capped tier slice keeps equal-keyed entities in load order: its
key-filtered content is an order-preserving subsequence of the key-filtered
load-order landlord list. -/
lemma tierSlice_stable (db : IntegratedDatabase) (q : PrioritizedTD → Bool)
    (n : Nat) (c : ℚ) :
    (((((prioritizedTargets db).filter q).take n).filter (withKey c)).Sublist
      ((loadOrderTargets db).filter (withKey c))) := by
  have t1 : (((((prioritizedTargets db).filter q).take n).filter (withKey c)).Sublist
      (((prioritizedTargets db).filter q).filter (withKey c))) :=
    (List.take_sublist _ _).filter _
  have t2 : ((((prioritizedTargets db).filter q).filter (withKey c)).Sublist
      ((prioritizedTargets db).filter (withKey c))) :=
    (List.filter_sublist _).filter _
  have t3 : (prioritizedTargets db).filter (withKey c) =
      (loadOrderTargets db).filter (withKey c) :=
    filter_sortByCombinedPriority c _
  rw [← t3]
  exact t1.trans t2

/-- C5: within each tier list of the generated report the entities appear in
non-increasing order of the combined priority
`0.6 * hypocrisy_score + 0.4 * (pressure_campaign_priority * 10)` (the
`combined_priority` attached by `loadOrderTargets`), and for every priority
value the entities carrying it appear as an order-preserving subsequence of
the load-order landlord list (stable sort), so output order is deterministic
given identical scores. -/
theorem claim_C5_tier_order_sorted_stable (db : IntegratedDatabase) (now : Nat) :
    ((generateTargetingReport db now).tier_1_critical.Pairwise combGE ∧
     (generateTargetingReport db now).tier_2_high.Pairwise combGE ∧
     (generateTargetingReport db now).tier_3_medium.Pairwise combGE) ∧
    ∀ c : ℚ,
      (((generateTargetingReport db now).tier_1_critical.filter (withKey c)).Sublist
        ((loadOrderTargets db).filter (withKey c))) ∧
      (((generateTargetingReport db now).tier_2_high.filter (withKey c)).Sublist
        ((loadOrderTargets db).filter (withKey c))) ∧
      (((generateTargetingReport db now).tier_3_medium.filter (withKey c)).Sublist
        ((loadOrderTargets db).filter (withKey c))) := by
  refine ⟨⟨tierSlice_pairwise db _ 5, tierSlice_pairwise db _ 8, tierSlice_pairwise db _ 10⟩, ?_⟩
  intro c
  exact ⟨tierSlice_stable db _ 5 c, tierSlice_stable db _ 8 c, tierSlice_stable db _ 10 c⟩

/-- Elements surviving a tier filter-and-cap all carry the tier's tag. -/
lemma all_filter_take (l : List PrioritizedTD) (q : PrioritizedTD → Bool) (n : Nat) :
    ((l.filter q).take n).all q = true := by
  rw [List.all_eq_true]
  intro p hp
  exact List.of_mem_filter (List.mem_of_mem_take hp)

/-- C8 (amended): an entity whose constituency is absent from the electoral
dataset is classified vulnerability UNKNOWN / targeting LOW with the
flip-probability fields (`votes_needed_to_flip`, `swing_required`) not
computed; in the report it is counted in `total_landlord_tds` and its
inconsistency score enters the summary average, but every entry of each tier
list carries that tier's tag (`TIER_1_CRITICAL`/`TIER_2_HIGH`/`TIER_3_MEDIUM`),
so a LOW-tagged entity is listed in none of the report's per-entity lists. -/
theorem claim_C8_amended_unknown_entity (cfg : IntegrationConfig) (td : RosterTD)
    (db : IntegratedDatabase) (now : Nat)
    (h : lookupConstituency cfg td.constituency = none) :
    addElectoralTargeting cfg td =
      { last_election_margin := none, vulnerability_level := "UNKNOWN",
        votes_needed_to_flip := none, targeting_priority := "LOW",
        campaign_strategy := "RESEARCH_NEEDED", swing_required := none } ∧
    ((generateTargetingReport db now).tier_1_critical.all
        (fun p => targetingPriorityOf p.td == "TIER_1_CRITICAL") = true ∧
     (generateTargetingReport db now).tier_2_high.all
        (fun p => targetingPriorityOf p.td == "TIER_2_HIGH") = true ∧
     (generateTargetingReport db now).tier_3_medium.all
        (fun p => targetingPriorityOf p.td == "TIER_3_MEDIUM") = true) ∧
    (generateTargetingReport db now).metadata.total_landlord_tds =
      (landlordList db).length ∧
    (generateTargetingReport db now).summary_stats.average_hypocrisy_score =
      ((landlordList db).map (fun t => (t.voting_record.hypocrisy_score : ℚ))).sum
        / ((landlordList db).length : ℚ) := by
  refine ⟨?_, ⟨all_filter_take _ _ 5, all_filter_take _ _ 8, all_filter_take _ _ 10⟩,
    rfl, rfl⟩
  unfold addElectoralTargeting
  rw [h]

/-- A sourced voting record for the report fixtures. -/
def vrSourced : VotingRecord :=
  { housing_votes :=
      { total_votes := 5, pro_tenant_votes := 0, anti_tenant_votes := 4,
        abstentions := 1, missed_votes := 0 },
    detailed_votes := some [],
    hypocrisy_score := 81,
    pressure_campaign_priority := some 8,
    last_updated := 0,
    verification_status := "EXISTING_DATA_ENHANCED" }

/-- The UNKNOWN/LOW electoral block of the absent-constituency branch. -/
def etUnknown : ElectoralTargeting :=
  { last_election_margin := none, vulnerability_level := "UNKNOWN",
    votes_needed_to_flip := none, targeting_priority := "LOW",
    campaign_strategy := "RESEARCH_NEEDED", swing_required := none }

/-- A landlord entity with no electoral-dataset entry, after integration. -/
def itdUnknown : IntegratedTD :=
  { party := "Fianna Fáil", constituency := "Kerry",
    properties := { property_count := 27, landlord_status := true },
    voting_record := vrSourced, electoral_data := some etUnknown }

/-- An integrated database holding exactly that entity. -/
def dbUnknown : IntegratedDatabase :=
  { tds := [("Michael Healy-Rae", itdUnknown)] }

/-- C8 witness: the amended claim at a concrete entity and database. -/
theorem claim_C8_witness :
    addElectoralTargeting cfgEmpty tdLandlord =
      { last_election_margin := none, vulnerability_level := "UNKNOWN",
        votes_needed_to_flip := none, targeting_priority := "LOW",
        campaign_strategy := "RESEARCH_NEEDED", swing_required := none } ∧
    ((generateTargetingReport dbUnknown 0).tier_1_critical.all
        (fun p => targetingPriorityOf p.td == "TIER_1_CRITICAL") = true ∧
     (generateTargetingReport dbUnknown 0).tier_2_high.all
        (fun p => targetingPriorityOf p.td == "TIER_2_HIGH") = true ∧
     (generateTargetingReport dbUnknown 0).tier_3_medium.all
        (fun p => targetingPriorityOf p.td == "TIER_3_MEDIUM") = true) ∧
    (generateTargetingReport dbUnknown 0).metadata.total_landlord_tds =
      (landlordList dbUnknown).length ∧
    (generateTargetingReport dbUnknown 0).summary_stats.average_hypocrisy_score =
      ((landlordList dbUnknown).map (fun t => (t.voting_record.hypocrisy_score : ℚ))).sum
        / ((landlordList dbUnknown).length : ℚ) :=
  claim_C8_amended_unknown_entity cfgEmpty tdLandlord dbUnknown 0 rfl

/-- C8 counterexample: a landlord entity with no electoral data keeps its
score, but its report lists it nowhere — all three tier lists of the report
over a one-entity database are empty although the entity is counted, refuting
"the entity still appears in the overall report output". -/
theorem claim_C8_counterexample :
    (generateTargetingReport dbUnknown 0).metadata.total_landlord_tds = 1 ∧
    (generateTargetingReport dbUnknown 0).tier_1_critical = [] ∧
    (generateTargetingReport dbUnknown 0).tier_2_high = [] ∧
    (generateTargetingReport dbUnknown 0).tier_3_medium = [] ∧
    itdUnknown.voting_record.hypocrisy_score = 81 :=
  ⟨rfl, rfl, rfl, rfl, rfl⟩

/-- C9 counterexample: two report-assembly runs on the identical sourced-only
database read different clock values and serialize differently —
`metadata.generated_at` is a wall-clock timestamp. -/
theorem claim_C9_counterexample :
    (generateTargetingReport dbUnknown 0).metadata.generated_at = 0 ∧
    (generateTargetingReport dbUnknown 1).metadata.generated_at = 1 ∧
    generateTargetingReport dbUnknown 0 ≠ generateTargetingReport dbUnknown 1 := by
  refine ⟨rfl, rfl, fun h => ?_⟩
  have h2 := congrArg (fun r => r.metadata.generated_at) h
  exact absurd h2 (by decide)

/-- C9 (amended): the report assembler is deterministic up to the wall-clock
field: two runs on the identical (sourced-only) input agree on every report
field except `metadata.generated_at`, whatever the two clock readings are —
and hence agree completely when the clock readings coincide. -/
theorem claim_C9_amended_deterministic_up_to_clock (db : IntegratedDatabase)
    (t₁ t₂ : Nat) :
    (generateTargetingReport db t₁).tier_1_critical =
      (generateTargetingReport db t₂).tier_1_critical ∧
    (generateTargetingReport db t₁).tier_2_high =
      (generateTargetingReport db t₂).tier_2_high ∧
    (generateTargetingReport db t₁).tier_3_medium =
      (generateTargetingReport db t₂).tier_3_medium ∧
    (generateTargetingReport db t₁).summary_stats =
      (generateTargetingReport db t₂).summary_stats ∧
    (generateTargetingReport db t₁).metadata.total_landlord_tds =
      (generateTargetingReport db t₂).metadata.total_landlord_tds ∧
    (generateTargetingReport db t₁).metadata.tier_1_targets =
      (generateTargetingReport db t₂).metadata.tier_1_targets ∧
    (generateTargetingReport db t₁).metadata.tier_2_targets =
      (generateTargetingReport db t₂).metadata.tier_2_targets :=
  ⟨rfl, rfl, rfl, rfl, rfl, rfl, rfl⟩
